import Mathlib

/-!
# CogniWeave: verification of the quickstart pipeline, CLI demo loop and utils

A shallow embedding of the three Python source files of the CogniWeave
repository (`cogniweave/quickstart.py`, `cogniweave/cli/__init__.py`,
`cogniweave/utils.py`), together with proofs of the frozen claims about them.

Components of the repository that live outside these files (the runnable
wrappers, the history store, the vector store) are modelled from the spec;
each such definition carries a doc comment starting with
`Modelled from the spec:`.
-/

namespace CogniWeave

/-! ## Environment model

`os.environ` is modelled as a partial map from variable names to values.
`env key = none` means the variable is unset. -/

def Env : Type := String → Option String

/-! ## utils.py: `get_provider_from_env` / `get_model_from_env`

Both functions build a factory closure that, when called, inspects
`os.environ[key]` and matches it against the regex `([^/]+)/([^/]+)`
(via `re.fullmatch`).  On a match the provider factory returns
`match.group(1).lower()` and the model factory returns
`match.group(2).lower()`; otherwise both fall back to the `default` /
`error_message` logic. -/

/-- Python's `str.lower()` restricted to its ASCII action: each character
`A`–`Z` is mapped to its lowercase form.  Defined on the character list so
that it evaluates by kernel reduction. -/
def pyLower (s : String) : String :=
  ⟨s.data.map Char.toLower⟩

/-- Python's `str.strip()` with the whitespace set modelled by
`Char.isWhitespace`: removes leading and trailing whitespace characters. -/
def pyStrip (s : String) : String :=
  ⟨((s.data.dropWhile Char.isWhitespace).reverse.dropWhile Char.isWhitespace).reverse⟩

/-- The `default` parameter of the two env factories: Python's
`str | NotGiven | None` with `NOT_GIVEN` as the defaulted sentinel. -/
inductive DefaultArg
  | notGiven
  | givenStr (s : String)
  | givenNone
deriving DecidableEq, Repr

/-- The message of the final `ValueError` raised by `get_from_env_fn` when the
variable is missing, no usable default is set and no truthy `error_message`
was supplied (the three concatenated f-string fragments of the source). -/
def didNotFindMsg (key : String) : String :=
  "Did not find " ++ key ++ ", please add an environment variable `" ++ key ++
    "` which contains it, or pass `" ++ key ++ "` as a named parameter."

/-- Split a character list at its first `'/'`: returns the characters before
the first slash (accumulated in `acc`) and the characters after it.
Embeds the search performed by the regex `([^/]+)/([^/]+)`. -/
def splitFirstSlash : List Char → List Char → Option (List Char × List Char)
  | _acc, [] => Option.none
  | acc, c :: rest =>
    if c = '/' then Option.some (acc, rest) else splitFirstSlash (acc ++ [c]) rest

/-- `re.fullmatch(r"([^/]+)/([^/]+)", v)`: succeeds exactly when `v` consists
of a non-empty slash-free part, one `'/'`, and a non-empty slash-free part,
returning the two groups. -/
def matchProviderModel (v : String) : Option (String × String) :=
  match splitFirstSlash [] v.data with
  | Option.none => Option.none
  | Option.some (a, b) =>
    if a = [] ∨ b = [] ∨ '/' ∈ b then Option.none else Option.some (⟨a⟩, ⟨b⟩)

/-- The fallback logic shared by both factories when the environment variable
is unset or does not match the regex: return `default` if it is a string or
`None`; otherwise raise `ValueError(error_message)` if `error_message` is
truthy (a non-empty string); otherwise raise the "Did not find" `ValueError`. -/
def fallbackFromEnv (key : String) (default : DefaultArg)
    (errorMessage : Option String) : Except String (Option String) :=
  match default with
  | .givenStr s => Except.ok (Option.some s)
  | .givenNone => Except.ok Option.none
  | .notGiven =>
    match errorMessage with
    | Option.some em =>
      if em = "" then Except.error (didNotFindMsg key) else Except.error em
    | Option.none => Except.error (didNotFindMsg key)

/-- `get_provider_from_env(key, default=…, error_message=…)()`: the factory
call's result, with `Except.error msg` standing for `raise ValueError(msg)`
and `Except.ok v` for returning `v` (`v = none` models returning `None`). -/
def getProviderFromEnv (key : String) (default : DefaultArg)
    (errorMessage : Option String) (env : Env) : Except String (Option String) :=
  match env key with
  | Option.some v =>
    match matchProviderModel v with
    | Option.some ab => Except.ok (Option.some (pyLower ab.1))
    | Option.none => fallbackFromEnv key default errorMessage
  | Option.none => fallbackFromEnv key default errorMessage

/-- `get_model_from_env(key, default=…, error_message=…)()`: identical to
`getProviderFromEnv` except that it returns `match.group(2).lower()`. -/
def getModelFromEnv (key : String) (default : DefaultArg)
    (errorMessage : Option String) (env : Env) : Except String (Option String) :=
  match env key with
  | Option.some v =>
    match matchProviderModel v with
    | Option.some ab => Except.ok (Option.some (pyLower ab.2))
    | Option.none => fallbackFromEnv key default errorMessage
  | Option.none => fallbackFromEnv key default errorMessage

/-! ## utils.py: `format_datetime_relative` -/

/-- A Python `datetime.date`: proleptic Gregorian calendar date. -/
structure PyDate where
  year : Nat
  month : Nat
  day : Nat
deriving DecidableEq, Repr

/-- A Python `datetime.datetime`, at minute precision (the function only
reads the date and `%H:%M`). -/
structure PyDateTime where
  year : Nat
  month : Nat
  day : Nat
  hour : Nat
  minute : Nat
deriving DecidableEq, Repr

/-- `datetime.date()`: the calendar date of a datetime. -/
def PyDateTime.date (t : PyDateTime) : PyDate :=
  ⟨t.year, t.month, t.day⟩

/-- Gregorian leap-year rule used by Python's `datetime` module. -/
def isLeap (y : Nat) : Bool :=
  y % 4 = 0 ∧ (y % 100 ≠ 0 ∨ y % 400 = 0)

/-- Number of days in a month of the proleptic Gregorian calendar. -/
def daysInMonth (y m : Nat) : Nat :=
  if m = 2 then (if isLeap y then 29 else 28)
  else if m = 4 ∨ m = 6 ∨ m = 9 ∨ m = 11 then 30
  else 31

/-- A date that Python's `datetime.date` can represent (`MINYEAR = 1`). -/
def validDate (d : PyDate) : Prop :=
  1 ≤ d.year ∧ 1 ≤ d.month ∧ d.month ≤ 12 ∧ 1 ≤ d.day ∧ d.day ≤ daysInMonth d.year d.month

instance (d : PyDate) : Decidable (validDate d) := by
  unfold validDate; infer_instance

/-- `today - timedelta(days=1)`: the previous calendar day, borrowing from
the previous month or year at a month boundary. -/
def predDate : PyDate → PyDate
  | ⟨y, m, d⟩ =>
    if 1 < d then ⟨y, m, d - 1⟩
    else if 1 < m then ⟨y, m - 1, daysInMonth y (m - 1)⟩
    else ⟨y - 1, 12, 31⟩

/-- The next calendar day (`d + timedelta(days=1)`): the inverse direction of
`predDate`, used to phrase "the calendar day immediately before". -/
def nextDate : PyDate → PyDate
  | ⟨y, m, d⟩ =>
    if d < daysInMonth y m then ⟨y, m, d + 1⟩
    else if m < 12 then ⟨y, m + 1, 1⟩
    else ⟨y + 1, 1, 1⟩

/-- Zero-pad a number to two digits (strftime `%H`, `%M`, `%m`, `%d`). -/
def pad2 (n : Nat) : String :=
  if n < 10 then "0" ++ toString n else toString n

/-- Zero-pad a number to four digits (strftime `%Y`). -/
def pad4 (n : Nat) : String :=
  if n < 10 then "000" ++ toString n
  else if n < 100 then "00" ++ toString n
  else if n < 1000 then "0" ++ toString n
  else toString n

/-- `old_time.strftime("%H:%M")`. -/
def timePartOf (t : PyDateTime) : String :=
  pad2 t.hour ++ ":" ++ pad2 t.minute

/-- `format_datetime_relative(old_time, now)` with `now` supplied (the
`now or datetime.now()` defaulting is outside the embedding): `"%H:%M"` for
today, `"Yesterday %H:%M"` for yesterday, `"%Y/%m/%d %H:%M"` otherwise. -/
def formatDatetimeRelative (oldTime now : PyDateTime) : String :=
  let today := now.date
  let yesterday := predDate today
  let oldDate := oldTime.date
  let timePart := timePartOf oldTime
  if oldDate = today then timePart
  else if oldDate = yesterday then "Yesterday " ++ timePart
  else pad4 oldTime.year ++ "/" ++ pad2 oldTime.month ++ "/" ++ pad2 oldTime.day ++ " " ++ timePart

/-! ## utils.py: `sync_ctx_manager_wrapper`

The async generator decorated with `@asynccontextmanager` is embedded as a
state machine over the wrapped body's outcome.  `asynccontextmanager`
semantics: the body runs at the `yield`; an exception raised by the body is
thrown into the generator at the `yield` point; `except Exception` catches
only `Exception` instances, so a `BaseException` that is not an `Exception`
propagates straight out without reaching either handler; if the `except`
branch completes without re-raising, the exception is suppressed.
`sync_func_wrapper` merely forwards the call to `cm.__enter__`/`cm.__exit__`
(possibly on a thread) and does not change this sequencing. -/

/-- Whether a raised Python object is an `Exception` or a `BaseException`
that is not an `Exception` (e.g. `CancelledError`, `KeyboardInterrupt`). -/
inductive ExcClass
  | exception
  | baseOnly
deriving DecidableEq, Repr

/-- A raised Python exception object. -/
structure PyExc where
  cls : ExcClass
  name : String
deriving DecidableEq, Repr

/-- Outcome of the wrapped `async with` body at the generator's `yield`. -/
inductive BodyOutcome
  | normal
  | raises (e : PyExc)
deriving DecidableEq, Repr

/-- A synchronous context manager, abstracted by what its `__exit__` returns:
`exitSuppresses none` is the truthiness of `__exit__(None, None, None)`,
`exitSuppresses (some e)` that of `__exit__(type(e), e, e.__traceback__)`. -/
structure SyncCM where
  exitSuppresses : Option PyExc → Bool

/-- Result of running the wrapper around a body: the list of arguments
`cm.__exit__` was called with (in call order; `none` = `(None, None, None)`,
`some e` = the triple of `e`), and the exception that propagated to the
caller, if any. -/
structure WrapperRun where
  exitCalls : List (Option PyExc)
  propagated : Option PyExc
deriving DecidableEq, Repr

/-- `sync_ctx_manager_wrapper(cm)` run around a body with outcome `body`:
- body completes normally → the `else` branch calls `__exit__(None, None, None)`;
- body raises an `Exception` `e` → `except Exception as e` calls
  `__exit__(type(e), e, e.__traceback__)` and re-raises `e` iff the result is
  falsy (a completed `except` branch suppresses the exception);
- body raises a `BaseException` that is not an `Exception` → neither branch
  runs and the exception propagates with `__exit__` never called. -/
def syncCtxManagerWrapper (cm : SyncCM) (body : BodyOutcome) : WrapperRun :=
  match body with
  | .normal => { exitCalls := [Option.none], propagated := Option.none }
  | .raises e =>
    match e.cls with
    | .exception =>
      if cm.exitSuppresses (Option.some e) then
        { exitCalls := [Option.some e], propagated := Option.none }
      else
        { exitCalls := [Option.some e], propagated := Option.some e }
    | .baseOnly => { exitCalls := [], propagated := Option.some e }

/-! ## cli/__init__.py: `_get_input` and the `demo` loop -/

/-- One read of standard input inside `_get_input`: either a line was read,
or `input()` raised `KeyboardInterrupt`/`EOFError`. -/
inductive InputEvent
  | line (s : String)
  | interrupted
deriving DecidableEq, Repr

/-- `_get_input()`: returns `None` on `KeyboardInterrupt`/`EOFError` and when
the line, stripped and lowercased, equals `"exit"`; otherwise returns the
raw line. -/
def getInputOpt : InputEvent → Option String
  | .interrupted => Option.none
  | .line s => if pyLower (pyStrip s) = "exit" then Option.none else Option.some s

/-- What one iteration of the `demo` `while True:` loop does with the value
produced by `_get_input`. -/
inductive LoopAction
  | exitLoop
  | streamInput (msg : String)
deriving DecidableEq, Repr

/-- One iteration of the `demo` loop: `input_msg = _get_input()`;
`if not input_msg: break` (both `None` and the falsy empty string break);
otherwise the pipeline is streamed with `{"input": input_msg}`. -/
def demoStep (ev : InputEvent) : LoopAction :=
  match getInputOpt ev with
  | Option.none => .exitLoop
  | Option.some m => if m = "" then .exitLoop else .streamInput m

/-! ## quickstart.py: configuration objects and factory functions -/

/-- A JSON-like Python value, used for runnable inputs/outputs such as the
end-detector default `{"output": []}`. -/
inductive Value
  | str (s : String)
  | vlist (xs : List Value)
  | dict (entries : List (String × Value))

/-- Python `x or y` on an optional string: `y` when `x` is `None` or the
falsy empty string. -/
def pyOr (x : Option String) (y : String) : String :=
  match x with
  | Option.some s => if s = "" then y else s
  | Option.none => y

/-- An object allocated by one of the `create_*` factories; `id` models
Python object identity (each factory call yields a fresh object). -/
structure Allocated (α : Type) where
  id : Nat
  cfg : α

/-- Configuration of the `OpenAIEmbeddings` instance built by
`create_embeddings`. -/
structure EmbeddingsCfg where
  provider : String
  model : String
deriving DecidableEq, Repr

/-- Configuration of the `HistoryStore` built by `create_history_store`. -/
structure HistoryStoreCfg where
  dbUrl : String
deriving DecidableEq, Repr

/-- Configuration of the `TagsVectorStore` built by `create_vector_store`;
`embeddingsId` records which embeddings object backs it. -/
structure VectorStoreCfg where
  folderPath : String
  indexName : String
  embeddingsId : Nat
  allowDangerousDeserialization : Bool
  autoSave : Bool
deriving DecidableEq, Repr

/-- One element of the template list handed to
`RichSystemMessagePromptTemplate.from_template`: a literal string or a
`MessageSegmentsPlaceholder(variable_name=…)`. -/
inductive TemplatePart
  | text (s : String)
  | segmentsPlaceholder (variableName : String)
deriving DecidableEq, Repr

/-- One element of the `contexts` list of the chat agent: the rich system
prompt template or a `MessagesPlaceholder(variable_name=…, optional=…)`. -/
inductive ContextItem
  | richSystem (parts : List TemplatePart)
  | messagesPlaceholder (variableName : String) (optional : Bool)
deriving DecidableEq, Repr

/-- Configuration of the `StringSingleTurnChat` built by `create_chat`. -/
structure ChatCfg where
  lang : String
  provider : String
  model : String
  contexts : List ContextItem

/-- `get_provider_from_env(key, default=dflt)()` when `dflt` is a string:
the call never raises, so the plain string result is extracted.  The
`fallbackFromEnv` line of `getProviderFromEnv` then always yields
`Except.ok (some dflt)`, so the catch-all arm below is unreachable. -/
def providerFromEnvD (key dflt : String) (env : Env) : String :=
  match getProviderFromEnv key (.givenStr dflt) Option.none env with
  | Except.ok (Option.some s) => s
  | _ => dflt

/-- `get_model_from_env(key, default=dflt)()` when `dflt` is a string;
see `providerFromEnvD`. -/
def modelFromEnvD (key dflt : String) (env : Env) : String :=
  match getModelFromEnv key (.givenStr dflt) Option.none env with
  | Except.ok (Option.some s) => s
  | _ => dflt

/-- `create_embeddings(provider=None, model=None)` as called by
`build_pipeline`: provider/model resolved from `EMBEDDINGS_MODEL` with
defaults `"openai"` / `"text-embedding-ada-002"`. -/
def createEmbeddings (env : Env) : EmbeddingsCfg :=
  { provider := providerFromEnvD "EMBEDDINGS_MODEL" "openai" env
    model := modelFromEnvD "EMBEDDINGS_MODEL" "text-embedding-ada-002" env }

/-- `create_history_store(index_name=…, folder_path=…)`: a history store
backed by `sqlite:///{folder_path}/{index_name}.sqlite`. -/
def createHistoryStore (indexName folderPath : String) : HistoryStoreCfg :=
  { dbUrl := "sqlite:///" ++ folderPath ++ "/" ++ indexName ++ ".sqlite" }

/-- `create_vector_store(embeddings, index_name=…, folder_path=…)`:
constructed with `allow_dangerous_deserialization=True` and
`auto_save=True`. -/
def createVectorStore (embeddingsId : Nat) (indexName folderPath : String) :
    VectorStoreCfg :=
  { folderPath := folderPath
    indexName := indexName
    embeddingsId := embeddingsId
    allowDangerousDeserialization := true
    autoSave := true }

/-- `create_chat(lang, prompt=…)` as called by `build_pipeline` (provider
and model arguments defaulted).  `promptMessages` stands for the external
`MultilingualStringPromptValue().to_messages(lang=lang)` collaborator.  The
contexts are the rich system template — the prompt strings, a `"\n"`, and a
`MessageSegmentsPlaceholder("long_memory")` — followed by an optional
`MessagesPlaceholder("history")`. -/
def createChat (lang? prompt? : Option String)
    (promptMessages : String → List String) (env : Env) : ChatCfg :=
  let lang := pyOr lang? (match env "LANGUAGE" with
    | Option.some v => v
    | Option.none => "zh")
  let promptList : List String :=
    (match prompt? with
      | Option.some p => if p = "" then promptMessages lang else [p]
      | Option.none => promptMessages lang) ++ ["\n"]
  { lang := lang
    provider := providerFromEnvD "CHAT_MODEL" "openai" env
    model := modelFromEnvD "CHAT_MODEL" "gpt-4.1" env
    contexts :=
      [ .richSystem (promptList.map .text ++ [.segmentsPlaceholder "long_memory"])
      , .messagesPlaceholder "history" true ] }

/-! ## quickstart.py: the runnable pipeline -/

/-- The runnable tree assembled by `build_pipeline`: the chat agent wrapped
by `RunnableWithMemoryMaker`, `RunnableWithEndDetector` and
`RunnableWithHistoryStore`.  Each wrapper node carries the store objects and
keyword configuration it was constructed with. -/
inductive Runnable
  | chatAgent (cfg : ChatCfg)
  | memoryMaker (inner : Runnable) (historyStore : Allocated HistoryStoreCfg)
      (vectorStore : Allocated VectorStoreCfg)
      (inputMessagesKey historyMessagesKey shortMemoryKey longMemoryKey : String)
  | endDetectorGate (inner : Runnable) (default : Value) (historyMessagesKey : String)
  | historyStoreWrapper (inner : Runnable) (historyStore : Allocated HistoryStoreCfg)
      (inputMessagesKey historyMessagesKey : String)

/-- The local objects of `build_pipeline` together with the runnable it
returns.  Allocation order fixes the object identities: `embeddings` (0),
`history_store` (1), `vector_store` (2). -/
structure BuiltPipeline where
  embeddings : Allocated EmbeddingsCfg
  historyStore : Allocated HistoryStoreCfg
  vectorStore : Allocated VectorStoreCfg
  runnable : Runnable

/-- `build_pipeline(lang, prompt, index_name=…, folder_path=…)`: creates the
embeddings, the history store, the vector store (backed by those
embeddings) and the chat agent, then wraps the agent in
`RunnableWithMemoryMaker` (keys `input`/`history`/`short_memory`/
`long_memory`), `RunnableWithEndDetector` (default `{"output": []}`) and
`RunnableWithHistoryStore` — both history-consuming wrappers receive the
same `history_store` object. -/
def buildPipelineParts (lang? prompt? : Option String)
    (promptMessages : String → List String) (env : Env)
    (indexName folderPath : String) : BuiltPipeline :=
  let embeddings : Allocated EmbeddingsCfg := ⟨0, createEmbeddings env⟩
  let historyStore : Allocated HistoryStoreCfg :=
    ⟨1, createHistoryStore indexName folderPath⟩
  let vectorStore : Allocated VectorStoreCfg :=
    ⟨2, createVectorStore embeddings.id indexName folderPath⟩
  let agent := createChat lang? prompt? promptMessages env
  let pipeline1 := Runnable.memoryMaker (.chatAgent agent) historyStore vectorStore
    "input" "history" "short_memory" "long_memory"
  let pipeline2 := Runnable.endDetectorGate pipeline1
    (Value.dict [("output", Value.vlist [])]) "history"
  { embeddings := embeddings
    historyStore := historyStore
    vectorStore := vectorStore
    runnable := Runnable.historyStoreWrapper pipeline2 historyStore "input" "history" }

/-- The value `build_pipeline` returns. -/
def buildPipeline (lang? prompt? : Option String)
    (promptMessages : String → List String) (env : Env)
    (indexName folderPath : String) : Runnable :=
  (buildPipelineParts lang? prompt? promptMessages env indexName folderPath).runnable

/-! ## Spec-modelled invocation semantics of the runnable wrappers

The wrapper classes `RunnableWithHistoryStore`, `RunnableWithEndDetector`
and `RunnableWithMemoryMaker` are not under `src/`; only their construction
in `quickstart.py` is.  Their per-invocation control flow is modelled from
spec §§4.5–4.7. -/

/-- The pipeline stages named by the spec's control-flow line. -/
inductive Stage
  | sessionPipeline
  | endGate
  | memoryComposer
  | agentCall
deriving DecidableEq, Repr

/-- The end detector's verdict on the (buffered) input of one invocation. -/
inductive Verdict
  | complete
  | incomplete
deriving DecidableEq, Repr

/-- Modelled from the spec: the invocation behaviour of the runnable
wrappers (spec §§4.5–4.7, not under `src/`).  Each wrapper stage delegates
to its wrapped runnable and passes the result back unchanged, except
`RunnableWithEndDetector`: on an `INCOMPLETE` verdict it returns its
configured `default` immediately and nothing reaches the wrapped runnable.
The result triple is (stages entered in order, result value, number of
times the innermost agent was invoked); `agentOut` is the value the
external agent call would produce. -/
def invokeStages : Runnable → Verdict → Value → List Stage × Value × Nat
  | .chatAgent _, _, agentOut => ([.agentCall], agentOut, 1)
  | .memoryMaker inner _ _ _ _ _ _, v, agentOut =>
    let r := invokeStages inner v agentOut
    (.memoryComposer :: r.1, r.2)
  | .endDetectorGate inner dflt _, v, agentOut =>
    (match v with
      | .incomplete => ([.endGate], dflt, 0)
      | .complete =>
        let r := invokeStages inner .complete agentOut
        (.endGate :: r.1, r.2))
  | .historyStoreWrapper inner _ _ _, v, agentOut =>
    let r := invokeStages inner v agentOut
    (.sessionPipeline :: r.1, r.2)

/-- The static nesting order of a runnable tree, outermost wrapper first. -/
def wrapperChain : Runnable → List Stage
  | .chatAgent _ => [.agentCall]
  | .memoryMaker inner _ _ _ _ _ _ => .memoryComposer :: wrapperChain inner
  | .endDetectorGate inner _ _ => .endGate :: wrapperChain inner
  | .historyStoreWrapper inner _ _ _ => .sessionPipeline :: wrapperChain inner

/-- The `default` of the outermost `RunnableWithEndDetector` layer, if any. -/
def endGateDefault : Runnable → Option Value
  | .chatAgent _ => Option.none
  | .memoryMaker inner _ _ _ _ _ _ => endGateDefault inner
  | .endDetectorGate _ dflt _ => Option.some dflt
  | .historyStoreWrapper inner _ _ _ => endGateDefault inner

/-- The four context keys the `RunnableWithMemoryMaker` layer was
constructed with, if any. -/
def memoryMakerKeys : Runnable → Option (String × String × String × String)
  | .chatAgent _ => Option.none
  | .memoryMaker _ _ _ ik hk sk lk => Option.some (ik, hk, sk, lk)
  | .endDetectorGate inner _ _ => memoryMakerKeys inner
  | .historyStoreWrapper inner _ _ _ => memoryMakerKeys inner

/-- The object identity of the history store held by the
`RunnableWithMemoryMaker` layer, if any. -/
def memoryMakerStoreId : Runnable → Option Nat
  | .chatAgent _ => Option.none
  | .memoryMaker _ hs _ _ _ _ _ => Option.some hs.id
  | .endDetectorGate inner _ _ => memoryMakerStoreId inner
  | .historyStoreWrapper inner _ _ _ => memoryMakerStoreId inner

/-- The object identity of the history store held by the outermost
`RunnableWithHistoryStore` layer, if any (`pipeline.history_store` in the
demo). -/
def outerStoreId : Runnable → Option Nat
  | .chatAgent _ => Option.none
  | .memoryMaker _ _ _ _ _ _ _ => Option.none
  | .endDetectorGate _ _ _ => Option.none
  | .historyStoreWrapper _ hs _ _ => Option.some hs.id

/-- The vector store held by the `RunnableWithMemoryMaker` layer, if any. -/
def memoryMakerVectorStore : Runnable → Option (Allocated VectorStoreCfg)
  | .chatAgent _ => Option.none
  | .memoryMaker _ _ vs _ _ _ _ => Option.some vs
  | .endDetectorGate inner _ _ => memoryMakerVectorStore inner
  | .historyStoreWrapper inner _ _ _ => memoryMakerVectorStore inner

/-- The chat agent configuration at the core of a runnable tree. -/
def agentCfgOf : Runnable → ChatCfg
  | .chatAgent cfg => cfg
  | .memoryMaker inner _ _ _ _ _ _ => agentCfgOf inner
  | .endDetectorGate inner _ _ => agentCfgOf inner
  | .historyStoreWrapper inner _ _ _ => agentCfgOf inner

/-! ## Spec-modelled stores -/

/-- A dialogue turn as persisted by the history store (spec §3: role,
content, timestamp; the session is the key under which it is stored). -/
structure Turn where
  role : String
  content : String
  timestamp : Nat
deriving DecidableEq, Repr

/-- Modelled from the spec: the durable state of every history store in the
process, keyed by store object identity and session id (`BaseHistoryStore`
is not under `src/`).  Each cell is the chronological append log of one
session in one store. -/
def StoreHeap : Type := Nat → String → List Turn

/-- Modelled from the spec: `HistoryStore.append(session, turn)` on store
`storeId` — appends the turn at the chronological end of that session's
log; a durable write visible to subsequent reads from any caller. -/
def appendTurn (heap : StoreHeap) (storeId : Nat) (session : String)
    (t : Turn) : StoreHeap :=
  fun i s => if i = storeId ∧ s = session then heap i s ++ [t] else heap i s

/-- Modelled from the spec: `get_history(session, limit?)` on one session's
chronological log — the most recent `limit` turns (default: all) in
chronological order; an empty session yields an empty sequence. -/
def getSessionHistory (log : List Turn) (limit : Option Nat) : List Turn :=
  match limit with
  | Option.none => log
  | Option.some k => log.drop (log.length - k)

/-- Modelled from the spec: reading a session's history from store
`storeId` of the heap. -/
def readHistory (heap : StoreHeap) (storeId : Nat) (session : String)
    (limit : Option Nat) : List Turn :=
  getSessionHistory (heap storeId session) limit

/-- Persisting a sequence of turns one by one into an initially empty
session log. -/
def persistTurns (ts : List Turn) : List Turn :=
  ts.foldl (fun log t => log ++ [t]) []

/-- A long-term memory tag (spec §3: fact text, embedding, scope,
timestamp). -/
structure MemoryTag where
  text : String
  embedding : List Int
  scope : String
  timestamp : Nat
deriving DecidableEq, Repr

/-- Modelled from the spec: the state of a `TagsVectorStore` — the
in-memory index and what has been persisted to the backing medium
(`TagsVectorStore` is not under `src/`). -/
structure VecState where
  memory : List MemoryTag
  persisted : List MemoryTag
deriving DecidableEq, Repr

/-- Modelled from the spec: `TagsVectorStore.add(tag)` — inserts the tag
into the index; when `auto_save` is enabled the new index is persisted to
the backing medium before `add` returns, otherwise the insert stays
buffered until an explicit `flush()`. -/
def addTag (autoSave : Bool) (st : VecState) (t : MemoryTag) : VecState :=
  let mem := st.memory ++ [t]
  { memory := mem, persisted := if autoSave then mem else st.persisted }

/-! ## Helper lemmas -/

lemma foldl_snoc_eq_append (ts : List Turn) :
    ∀ init : List Turn, ts.foldl (fun log t => log ++ [t]) init = init ++ ts := by
  induction ts with
  | nil => intro init; simp
  | cons t rest ih => intro init; simp [List.foldl, ih]

lemma splitFirstSlash_of_no_slash (A : List Char) (hA : '/' ∉ A) :
    ∀ (acc B : List Char), splitFirstSlash acc (A ++ '/' :: B) = Option.some (acc ++ A, B) := by
  induction A with
  | nil => intro acc B; simp [splitFirstSlash]
  | cons c t ih =>
    intro acc B
    have hc : ¬(c = '/') := fun h => hA (h ▸ List.mem_cons_self c t)
    simp only [List.cons_append, splitFirstSlash, if_neg hc, List.append_eq]
    rw [ih (fun h => hA (List.mem_cons_of_mem c h)) (acc ++ [c]) B]
    simp

lemma matchProviderModel_split (A B : String) (hA : A.data ≠ []) (hB : B.data ≠ [])
    (hA' : '/' ∉ A.data) (hB' : '/' ∉ B.data) :
    matchProviderModel (A ++ "/" ++ B) = Option.some (A, B) := by
  have hdata : (A ++ "/" ++ B).data = A.data ++ '/' :: B.data := by
    rw [String.data_append, String.data_append]
    simp
  unfold matchProviderModel
  rw [hdata, splitFirstSlash_of_no_slash A.data hA' [] B.data]
  show (if A.data = [] ∨ B.data = [] ∨ '/' ∈ B.data then Option.none
        else Option.some ((⟨A.data⟩ : String), (⟨B.data⟩ : String))) = Option.some (A, B)
  rw [if_neg (by push_neg; exact ⟨hA, hB, hB'⟩)]

lemma daysInMonth_twelve (y : Nat) : daysInMonth y 12 = 31 := rfl

lemma nextDate_ne (d : PyDate) : nextDate d ≠ d := by
  obtain ⟨y, m, dd⟩ := d
  simp only [nextDate]
  split_ifs with h1 h2
  · simp only [ne_eq, PyDate.mk.injEq]; omega
  · simp only [ne_eq, PyDate.mk.injEq]; omega
  · simp only [ne_eq, PyDate.mk.injEq]; omega

lemma predDate_nextDate (d : PyDate) (hd : validDate d) : predDate (nextDate d) = d := by
  obtain ⟨y, m, dd⟩ := d
  have hy : 1 ≤ y := hd.1
  have hm1 : 1 ≤ m := hd.2.1
  have hm2 : m ≤ 12 := hd.2.2.1
  have hd1 : 1 ≤ dd := hd.2.2.2.1
  have hd2 : dd ≤ daysInMonth y m := hd.2.2.2.2
  simp only [nextDate]
  split_ifs with h1 h2
  · simp only [predDate]
    rw [if_pos (by omega : 1 < dd + 1)]
    simp
  · simp only [predDate]
    rw [if_neg (by omega : ¬(1:Nat) < 1), if_pos (by omega : 1 < m + 1)]
    simp [PyDate.mk.injEq]
    omega
  · have hm : m = 12 := by omega
    subst hm
    rw [daysInMonth_twelve] at h1 hd2
    simp only [predDate]
    rw [if_neg (by omega : ¬(1:Nat) < 1), if_neg (by omega : ¬(1:Nat) < 1)]
    simp [PyDate.mk.injEq]
    omega

lemma nextDate_predDate (d : PyDate) (hd : validDate d) : nextDate (predDate d) = d := by
  obtain ⟨y, m, dd⟩ := d
  have hy : 1 ≤ y := hd.1
  have hm1 : 1 ≤ m := hd.2.1
  have hm2 : m ≤ 12 := hd.2.2.1
  have hd1 : 1 ≤ dd := hd.2.2.2.1
  have hd2 : dd ≤ daysInMonth y m := hd.2.2.2.2
  simp only [predDate]
  split_ifs with h1 h2
  · simp only [nextDate]
    rw [if_pos (by omega : dd - 1 < daysInMonth y m)]
    simp [PyDate.mk.injEq]
    omega
  · simp only [nextDate]
    rw [if_neg (by omega : ¬daysInMonth y (m - 1) < daysInMonth y (m - 1)),
      if_pos (by omega : m - 1 < 12)]
    simp [PyDate.mk.injEq]
    omega
  · have hm : m = 1 := by omega
    subst hm
    simp only [nextDate]
    rw [daysInMonth_twelve]
    rw [if_neg (by omega : ¬(31:Nat) < 31), if_neg (by omega : ¬(12:Nat) < 12)]
    simp [PyDate.mk.injEq]
    omega

/-- The environment variable is unset, or is set to a value the regex
`([^/]+)/([^/]+)` does not fully match (the "other value" case of the
factories). -/
def envNoMatch (env : Env) (key : String) : Prop :=
  ∀ v, env key = Option.some v → matchProviderModel v = Option.none

lemma getProviderFromEnv_fallback (key : String) (default : DefaultArg)
    (errM : Option String) (env : Env) (h : envNoMatch env key) :
    getProviderFromEnv key default errM env = fallbackFromEnv key default errM := by
  unfold getProviderFromEnv
  cases hv : env key with
  | none => rfl
  | some v =>
    show (match matchProviderModel v with
          | Option.some ab => Except.ok (Option.some (pyLower ab.1))
          | Option.none => fallbackFromEnv key default errM) =
        fallbackFromEnv key default errM
    rw [h v hv]

lemma getModelFromEnv_fallback (key : String) (default : DefaultArg)
    (errM : Option String) (env : Env) (h : envNoMatch env key) :
    getModelFromEnv key default errM env = fallbackFromEnv key default errM := by
  unfold getModelFromEnv
  cases hv : env key with
  | none => rfl
  | some v =>
    show (match matchProviderModel v with
          | Option.some ab => Except.ok (Option.some (pyLower ab.2))
          | Option.none => fallbackFromEnv key default errM) =
        fallbackFromEnv key default errM
    rw [h v hv]

/-! ## Theorems for the claims -/

/-- C1: `build_pipeline` composes the stages in the spec's control-flow
order: the returned runnable is the history-store wrapper around the
end-detector wrapper around the memory-maker wrapper around the agent, and
an invocation that reaches the agent passes through SessionPipeline,
EndGate, MemoryComposer and the agent call in exactly that order. -/
theorem build_pipeline_stage_order (lang? prompt? : Option String)
    (promptMessages : String → List String) (env : Env)
    (indexName folderPath : String) (agentOut : Value) :
    wrapperChain (buildPipeline lang? prompt? promptMessages env indexName folderPath) =
      [Stage.sessionPipeline, Stage.endGate, Stage.memoryComposer, Stage.agentCall] ∧
    invokeStages (buildPipeline lang? prompt? promptMessages env indexName folderPath)
        Verdict.complete agentOut =
      ([Stage.sessionPipeline, Stage.endGate, Stage.memoryComposer, Stage.agentCall],
        agentOut, 1) := by
  exact ⟨rfl, rfl⟩

/-- C2: the end-detector wrapper built by `build_pipeline` is configured
with `default = {"output": []}`, and an invocation judged INCOMPLETE
returns exactly that value while entering only the SessionPipeline and
EndGate stages, with zero agent invocations — nothing reaches the wrapped
MemoryComposer or agent. -/
theorem build_pipeline_incomplete_returns_default (lang? prompt? : Option String)
    (promptMessages : String → List String) (env : Env)
    (indexName folderPath : String) (agentOut : Value) :
    endGateDefault (buildPipeline lang? prompt? promptMessages env indexName folderPath) =
      Option.some (Value.dict [("output", Value.vlist [])]) ∧
    invokeStages (buildPipeline lang? prompt? promptMessages env indexName folderPath)
        Verdict.incomplete agentOut =
      ([Stage.sessionPipeline, Stage.endGate],
        Value.dict [("output", Value.vlist [])], 0) := by
  exact ⟨rfl, rfl⟩

/-- C3: `build_pipeline` constructs the memory-maker wrapper with exactly
the keys `input`, `history`, `short_memory` and `long_memory`, and the chat
agent's templates consume the `long_memory` segments placeholder inside the
system template and an optional `history` messages placeholder. -/
theorem build_pipeline_context_keys (lang? prompt? : Option String)
    (promptMessages : String → List String) (env : Env)
    (indexName folderPath : String) :
    memoryMakerKeys (buildPipeline lang? prompt? promptMessages env indexName folderPath) =
      Option.some ("input", "history", "short_memory", "long_memory") ∧
    ∃ promptParts : List TemplatePart,
      (agentCfgOf (buildPipeline lang? prompt? promptMessages env indexName folderPath)).contexts =
        [ ContextItem.richSystem
            (promptParts ++ [TemplatePart.segmentsPlaceholder "long_memory"])
        , ContextItem.messagesPlaceholder "history" true ] := by
  exact ⟨rfl, _, rfl⟩

/-- C4: the vector store produced by `create_vector_store` — and the one
held by the pipeline's memory-maker stage — has `auto_save = true`, so
every tag insert performed through it is persisted to the backing medium
by the time `add` returns (the persisted index equals the in-memory index
and contains the new tag). -/
theorem vector_store_auto_save (lang? prompt? : Option String)
    (promptMessages : String → List String) (env : Env)
    (indexName folderPath : String) (embeddingsId : Nat)
    (st : VecState) (t : MemoryTag) :
    (createVectorStore embeddingsId indexName folderPath).autoSave = true ∧
    (memoryMakerVectorStore
        (buildPipeline lang? prompt? promptMessages env indexName folderPath)).map
        (fun vs => vs.cfg.autoSave) = Option.some true ∧
    (addTag (createVectorStore embeddingsId indexName folderPath).autoSave st t).persisted =
      (addTag (createVectorStore embeddingsId indexName folderPath).autoSave st t).memory ∧
    t ∈ (addTag (createVectorStore embeddingsId indexName folderPath).autoSave st t).persisted := by
  refine ⟨rfl, rfl, rfl, ?_⟩
  simp [addTag, createVectorStore]

/-- C5: `build_pipeline` hands one and the same history-store object to the
memory-maker stage and to the outermost history-store wrapper, and the
vector store is backed by the single embeddings instance; consequently a
turn durably appended through the outer stage's store is visible to the
memory-composition read of any subsequent invocation. -/
theorem build_pipeline_shared_stores (lang? prompt? : Option String)
    (promptMessages : String → List String) (env : Env)
    (indexName folderPath : String) (heap : StoreHeap) (session : String) (t : Turn) :
    memoryMakerStoreId
        (buildPipelineParts lang? prompt? promptMessages env indexName folderPath).runnable =
      Option.some
        (buildPipelineParts lang? prompt? promptMessages env indexName folderPath).historyStore.id ∧
    outerStoreId
        (buildPipelineParts lang? prompt? promptMessages env indexName folderPath).runnable =
      Option.some
        (buildPipelineParts lang? prompt? promptMessages env indexName folderPath).historyStore.id ∧
    (memoryMakerVectorStore
        (buildPipelineParts lang? prompt? promptMessages env indexName folderPath).runnable).map
        (fun vs => vs.cfg.embeddingsId) =
      Option.some
        (buildPipelineParts lang? prompt? promptMessages env indexName folderPath).embeddings.id ∧
    readHistory
        (appendTurn heap
          (buildPipelineParts lang? prompt? promptMessages env indexName folderPath).historyStore.id
          session t)
        (buildPipelineParts lang? prompt? promptMessages env indexName folderPath).historyStore.id
        session Option.none =
      readHistory heap
        (buildPipelineParts lang? prompt? promptMessages env indexName folderPath).historyStore.id
        session Option.none ++ [t] := by
  refine ⟨rfl, rfl, rfl, ?_⟩
  simp [readHistory, appendTurn, getSessionHistory]

/-- C6: persisting N turns into an initially empty session and reading with
`limit ≥ N` returns the N turns in their original chronological order with
identical content, and reading an empty session yields the empty sequence
(for any limit, including the demo's `limit=10` replay). -/
theorem history_round_trip (ts : List Turn) (k : Nat) (hk : ts.length ≤ k)
    (limit : Option Nat) :
    getSessionHistory (persistTurns ts) (Option.some k) = ts ∧
    getSessionHistory ([] : List Turn) limit = [] := by
  constructor
  · have h1 : persistTurns ts = ts := by
      simpa using foldl_snoc_eq_append ts []
    rw [h1]
    simp [getSessionHistory, Nat.sub_eq_zero_of_le hk]
  · cases limit <;> simp [getSessionHistory]

/-- C6 witness: two turns persisted and replayed with the demo's
`limit = 10` come back unchanged and in order; an empty session reads as
empty. -/
theorem history_round_trip_witness :
    getSessionHistory
        (persistTurns [⟨"user", "hi", 0⟩, ⟨"assistant", "hello", 1⟩])
        (Option.some 10) =
      [⟨"user", "hi", 0⟩, ⟨"assistant", "hello", 1⟩] ∧
    getSessionHistory ([] : List Turn) (Option.some 10) = [] :=
  history_round_trip [⟨"user", "hi", 0⟩, ⟨"assistant", "hello", 1⟩] 10 (by decide)
    (Option.some 10)

/-- C7 counterexample: the empty input line makes the demo loop break even
though it neither strips/lowercases to `"exit"` nor stems from
`EOFError`/`KeyboardInterrupt` — `_get_input` returns the falsy `""` and
`if not input_msg: break` fires. -/
theorem demo_loop_empty_line_exits :
    demoStep (InputEvent.line "") = LoopAction.exitLoop ∧
    ¬(pyLower (pyStrip "") = "exit") := by
  constructor
  · rfl
  · decide

/-- C7 (amended): the demo loop terminates exactly when input raises
`EOFError`/`KeyboardInterrupt`, or the line stripped and lowercased equals
`"exit"`, or the line is empty; any other input line continues the loop and
streams that line through the pipeline. -/
theorem demo_loop_termination (s : String) :
    demoStep InputEvent.interrupted = LoopAction.exitLoop ∧
    demoStep (InputEvent.line s) =
      (if pyLower (pyStrip s) = "exit" ∨ s = "" then LoopAction.exitLoop
       else LoopAction.streamInput s) := by
  refine ⟨rfl, ?_⟩
  by_cases h1 : pyLower (pyStrip s) = "exit"
  · simp [demoStep, getInputOpt, h1]
  · by_cases h2 : s = ""
    · subst h2; decide
    · simp [demoStep, getInputOpt, h1, h2]

/-- C10: the wrapper preserves context-manager semantics for `Exception`
but not `BaseException`: normal body completion calls `__exit__` exactly
once with `(None, None, None)`; a body raising an `Exception` calls
`__exit__` exactly once with that exception's triple, and the exception
propagates iff `__exit__` returned a falsy value; a body raising a
`BaseException` that is not an `Exception` propagates with `__exit__`
never called. -/
theorem sync_ctx_manager_wrapper_exit_semantics (cm : SyncCM) (e : PyExc) :
    (syncCtxManagerWrapper cm BodyOutcome.normal).exitCalls = [Option.none] ∧
    (syncCtxManagerWrapper cm BodyOutcome.normal).propagated = Option.none ∧
    (e.cls = ExcClass.exception →
      (syncCtxManagerWrapper cm (BodyOutcome.raises e)).exitCalls = [Option.some e] ∧
      ((syncCtxManagerWrapper cm (BodyOutcome.raises e)).propagated = Option.some e ↔
        cm.exitSuppresses (Option.some e) = false)) ∧
    (e.cls = ExcClass.baseOnly →
      (syncCtxManagerWrapper cm (BodyOutcome.raises e)).exitCalls = [] ∧
      (syncCtxManagerWrapper cm (BodyOutcome.raises e)).propagated = Option.some e) := by
  obtain ⟨cls, name⟩ := e
  refine ⟨rfl, rfl, ?_, ?_⟩
  · rintro rfl
    cases hs : cm.exitSuppresses (Option.some ⟨ExcClass.exception, name⟩) <;>
      simp [syncCtxManagerWrapper, hs]
  · rintro rfl
    exact ⟨rfl, rfl⟩

/-- C10 witness: a non-suppressing context manager around a body raising a
`ValueError` has `__exit__` called once with the exception triple and the
exception propagating. -/
theorem sync_ctx_manager_wrapper_exit_semantics_witness :
    (syncCtxManagerWrapper ⟨fun _ => false⟩
        (BodyOutcome.raises ⟨ExcClass.exception, "ValueError"⟩)).exitCalls =
      [Option.some ⟨ExcClass.exception, "ValueError"⟩] ∧
    (syncCtxManagerWrapper ⟨fun _ => false⟩
        (BodyOutcome.raises ⟨ExcClass.exception, "ValueError"⟩)).propagated =
      Option.some ⟨ExcClass.exception, "ValueError"⟩ := by
  have h := sync_ctx_manager_wrapper_exit_semantics ⟨fun _ => false⟩
    ⟨ExcClass.exception, "ValueError"⟩
  exact ⟨(h.2.2.1 rfl).1, (h.2.2.1 rfl).2.mpr rfl⟩

/-- C8 counterexample: with the variable unset, no default, and the
error_message parameter provided as the (falsy) empty string, the factory
raises the "Did not find" `ValueError` — not a `ValueError` carrying the
provided error_message, which is the empty string and differs from the
raised message. -/
theorem env_factory_empty_error_message :
    getProviderFromEnv "CHAT_MODEL" DefaultArg.notGiven (Option.some "")
        (fun _ => Option.none) = Except.error (didNotFindMsg "CHAT_MODEL") ∧
    ¬(didNotFindMsg "CHAT_MODEL" = "") := by
  constructor
  · rfl
  · decide

/-- C8 (amended): for a variable set to `A/B` with `A`, `B` non-empty and
slash-free, the provider factory yields `A` lowercased and the model factory
`B` lowercased; for any other value or an unset variable, both return the
given default when it is a string or `None`, raise `ValueError` with
`error_message` when that is provided **and non-empty**, and otherwise —
including when a provided `error_message` is the empty string — raise the
"Did not find {key}" `ValueError`; a set-but-malformed value silently falls
back to the default. -/
theorem env_factories_behavior (key A B : String) (env : Env)
    (default : DefaultArg) (errM : Option String) :
    (env key = Option.some (A ++ "/" ++ B) → A.data ≠ [] → B.data ≠ [] →
      '/' ∉ A.data → '/' ∉ B.data →
      getProviderFromEnv key default errM env = Except.ok (Option.some (pyLower A)) ∧
      getModelFromEnv key default errM env = Except.ok (Option.some (pyLower B))) ∧
    (envNoMatch env key →
      ((∀ s, default = DefaultArg.givenStr s →
          getProviderFromEnv key default errM env = Except.ok (Option.some s) ∧
          getModelFromEnv key default errM env = Except.ok (Option.some s)) ∧
       (default = DefaultArg.givenNone →
          getProviderFromEnv key default errM env = Except.ok Option.none ∧
          getModelFromEnv key default errM env = Except.ok Option.none) ∧
       (∀ em, default = DefaultArg.notGiven → errM = Option.some em → ¬(em = "") →
          getProviderFromEnv key default errM env = Except.error em ∧
          getModelFromEnv key default errM env = Except.error em) ∧
       (default = DefaultArg.notGiven → (errM = Option.none ∨ errM = Option.some "") →
          getProviderFromEnv key default errM env = Except.error (didNotFindMsg key) ∧
          getModelFromEnv key default errM env = Except.error (didNotFindMsg key)))) := by
  constructor
  · intro hkey hA hB hA' hB'
    have hm := matchProviderModel_split A B hA hB hA' hB'
    constructor
    · unfold getProviderFromEnv
      rw [hkey]
      show (match matchProviderModel (A ++ "/" ++ B) with
            | Option.some ab => Except.ok (Option.some (pyLower ab.1))
            | Option.none => fallbackFromEnv key default errM) =
          Except.ok (Option.some (pyLower A))
      rw [hm]
    · unfold getModelFromEnv
      rw [hkey]
      show (match matchProviderModel (A ++ "/" ++ B) with
            | Option.some ab => Except.ok (Option.some (pyLower ab.2))
            | Option.none => fallbackFromEnv key default errM) =
          Except.ok (Option.some (pyLower B))
      rw [hm]
  · intro hnm
    have hp := getProviderFromEnv_fallback key default errM env hnm
    have hq := getModelFromEnv_fallback key default errM env hnm
    refine ⟨?_, ?_, ?_, ?_⟩
    · rintro s rfl
      exact ⟨hp.trans rfl, hq.trans rfl⟩
    · rintro rfl
      exact ⟨hp.trans rfl, hq.trans rfl⟩
    · rintro em rfl rfl hem
      have hf : fallbackFromEnv key DefaultArg.notGiven (Option.some em) =
          Except.error em := by
        show (if em = "" then Except.error (didNotFindMsg key) else Except.error em) =
          Except.error em
        rw [if_neg hem]
      exact ⟨hp.trans hf, hq.trans hf⟩
    · rintro rfl (rfl | rfl)
      · exact ⟨hp.trans rfl, hq.trans rfl⟩
      · exact ⟨hp.trans rfl, hq.trans rfl⟩

/-- C8 witness: with `CHAT_MODEL=OpenAI/GPT-4.1` in the environment, the
provider factory returns `"openai"` and the model factory `"gpt-4.1"`. -/
theorem env_factories_behavior_witness :
    getProviderFromEnv "CHAT_MODEL" DefaultArg.notGiven Option.none
        (fun k => if k = "CHAT_MODEL" then Option.some "OpenAI/GPT-4.1" else Option.none) =
      Except.ok (Option.some "openai") ∧
    getModelFromEnv "CHAT_MODEL" DefaultArg.notGiven Option.none
        (fun k => if k = "CHAT_MODEL" then Option.some "OpenAI/GPT-4.1" else Option.none) =
      Except.ok (Option.some "gpt-4.1") := by
  have h := (env_factories_behavior "CHAT_MODEL" "OpenAI" "GPT-4.1"
      (fun k => if k = "CHAT_MODEL" then Option.some "OpenAI/GPT-4.1" else Option.none)
      DefaultArg.notGiven Option.none).1
    (by decide) (by decide) (by decide) (by decide) (by decide)
  refine ⟨h.1.trans ?_, h.2.trans ?_⟩ <;> rfl

/-- C9: for any pair of valid datetimes, `format_datetime_relative` returns
exactly `"HH:MM"` of `old_time` when the calendar dates coincide, exactly
`"Yesterday HH:MM"` when `old_time`'s date is the calendar day immediately
before `now`'s date, and exactly `"YYYY/MM/DD HH:MM"` in all other cases
(future dates and dates more than one day in the past included). -/
theorem format_datetime_relative_cases (oldTime now : PyDateTime)
    (hOld : validDate oldTime.date) (hNow : validDate now.date) :
    (oldTime.date = now.date →
      formatDatetimeRelative oldTime now = timePartOf oldTime) ∧
    (nextDate oldTime.date = now.date →
      formatDatetimeRelative oldTime now = "Yesterday " ++ timePartOf oldTime) ∧
    (oldTime.date ≠ now.date → nextDate oldTime.date ≠ now.date →
      formatDatetimeRelative oldTime now =
        pad4 oldTime.year ++ "/" ++ pad2 oldTime.month ++ "/" ++ pad2 oldTime.day ++
          " " ++ timePartOf oldTime) := by
  refine ⟨?_, ?_, ?_⟩
  · intro h
    simp only [formatDatetimeRelative]
    rw [if_pos h]
  · intro h
    have hne : oldTime.date ≠ now.date := fun he => nextDate_ne oldTime.date (h.trans he.symm)
    have hyest : oldTime.date = predDate now.date := by
      rw [← h, predDate_nextDate oldTime.date hOld]
    simp only [formatDatetimeRelative]
    rw [if_neg hne, if_pos hyest]
  · intro h1 h2
    have hyest : oldTime.date ≠ predDate now.date := by
      intro he
      exact h2 (by rw [he, nextDate_predDate now.date hNow])
    simp only [formatDatetimeRelative]
    rw [if_neg h1, if_neg hyest]

/-- C9 witness: 2024-02-29 09:05 seen from 2024-03-01 23:59 — a leap-day
month boundary — formats as `"Yesterday 09:05"`. -/
theorem format_datetime_relative_cases_witness :
    formatDatetimeRelative ⟨2024, 2, 29, 9, 5⟩ ⟨2024, 3, 1, 23, 59⟩ = "Yesterday 09:05" := by
  have h := (format_datetime_relative_cases ⟨2024, 2, 29, 9, 5⟩ ⟨2024, 3, 1, 23, 59⟩
      (by decide) (by decide)).2.1 (by decide)
  rw [h]
  rfl

end CogniWeave
